import Mathlib

set_option maxRecDepth 8000

/-!
Shallow embedding of the healthcare-project repository:
src/healthcare_gd_to_s3.py (incremental Google Drive to S3 sync Lambda with a
DynamoDB state store and a Glue trigger guard) and src/raw_to_refined.py
(per-dataset Glue transform job).  Pure functions are translated directly;
effectful code (S3/Drive/DynamoDB/Glue calls, the local /tmp filesystem) is
modelled by explicit state passing over a World record plus an Oracle that
fixes the outcome of each external call.  Strings are ASCII in this model:
Python's str.lower / re.IGNORECASE / unicode digit classes are restricted to
their ASCII behavior, which covers every string the repository manipulates.
-/

/-- Python string comparison (lexicographic by code point), embedding the
comparison in the source line
return drive_modified_time > last_modified   (healthcare_gd_to_s3.py:192),
stated as a strictly-less test on the underlying character lists. -/
def pyLt : List Char → List Char → Bool
  | [], [] => false
  | [], _ :: _ => true
  | _ :: _, [] => false
  | a :: xs, b :: ys => if a < b then true else if b < a then false else pyLt xs ys

/-- Python a > b on strings. -/
def pyStrGt (a b : String) : Bool := pyLt b.toList a.toList

theorem pyLt_irrefl (l : List Char) : pyLt l l = false := by
  induction l with
  | nil => rfl
  | cons a xs ih => simp [pyLt, lt_irrefl, ih]

/-- One DynamoDB item of the sync-state table, as written by update_state
(healthcare_gd_to_s3.py:195-206).  modifiedTime is an Option because
should_process_file reads it with item.get, which may be absent. -/
structure SyncItem where
  file_id : String
  file_name : String
  modifiedTime : Option String
  s3_bucket : String
  s3_key : String
  dataset_folder : String
  last_processed_at : String
deriving DecidableEq

/-- The DynamoDB table keyed by file_id: get_item by key. -/
def StateTable : Type := String → Option SyncItem

/-- should_process_file (healthcare_gd_to_s3.py:175-192):
no item ⇒ True; item without / with empty modifiedTime ⇒ True;
otherwise drive_modified_time > last_modified (Python string comparison). -/
def should_process_file (table : StateTable) (file_id : String)
    (drive_modified_time : String) : Bool :=
  match table file_id with
  | none => true
  | some item =>
    match item.modifiedTime with
    | none => true
    | some last_modified =>
      if last_modified = "" then true
      else pyStrGt drive_modified_time last_modified

/-!  The routing regexes.  Every pattern in ROUTE_RULES has the form
^ <literals and digit classes and one optional .*> $ compiled with
re.IGNORECASE and applied with pattern.match (anchored at the start), so a
pattern is a list of three kinds of items; the ^ anchor is the implicit whole
start and the $ anchor is the base case of the matcher, which accepts the
empty remainder or a single trailing newline (Python $ semantics).  The dot
of .* matches any character except newline. -/
inductive RItem where
  | lit (c : Char)
  | digit
  | dotStar
deriving DecidableEq

/-- A run of literal pattern characters. -/
def lits (s : String) : List RItem := s.toList.map RItem.lit

/-- Fuel-based regex matcher.  Each recursive call strictly decreases
(pattern length + input length), so fuel = pattern length + input length + 1
(as supplied by rmatch below) never runs out; the fuel only makes the
recursion structural. -/
def rmatchFuel : Nat → List RItem → List Char → Bool
  | 0, _, _ => false
  | _ + 1, [], [] => true
  | _ + 1, [], [c] => c == '\n'
  | _ + 1, [], _ :: _ :: _ => false
  | _ + 1, .lit _ :: _, [] => false
  | f + 1, .lit c :: ps, x :: xs => (x.toLower == c.toLower) && rmatchFuel f ps xs
  | _ + 1, .digit :: _, [] => false
  | f + 1, .digit :: ps, x :: xs => x.isDigit && rmatchFuel f ps xs
  | f + 1, .dotStar :: ps, s =>
      rmatchFuel f ps s ||
        (match s with
         | [] => false
         | x :: xs => (x != '\n') && rmatchFuel f (.dotStar :: ps) xs)

/-- Anchored, case-insensitive match of one ROUTE_RULES pattern. -/
def rmatch (ps : List RItem) (s : List Char) : Bool :=
  rmatchFuel (ps.length + s.length + 1) ps s

/-- ROUTE_RULES (healthcare_gd_to_s3.py:42-73), in source order. -/
def ROUTE_RULES : List (List RItem × String) := [
  (lits "FY_" ++ [.digit, .digit, .digit, .digit] ++ lits "_SNF_VBP_Aggregate_Performance.csv",
    "snf_vbp_aggregate"),
  (lits "FY_" ++ [.digit, .digit, .digit, .digit] ++ lits "_SNF_VBP_Facility_Performance.csv",
    "snf_vbp_facility"),
  (lits "NH_CitationDescriptions_" ++ [.dotStar] ++ lits ".csv", "nh_citation_descriptions"),
  (lits "NH_CovidVaxAverages_" ++ [.dotStar] ++ lits ".csv", "nh_covid_vax_averages"),
  (lits "NH_CovidVaxProvider_" ++ [.dotStar] ++ lits ".csv", "nh_covid_vax_provider"),
  (lits "NH_DataCollectionIntervals_" ++ [.dotStar] ++ lits ".csv", "nh_data_collection_intervals"),
  (lits "NH_FireSafetyCitations_" ++ [.dotStar] ++ lits ".csv", "nh_fire_safety_citations"),
  (lits "NH_HealthCitations_" ++ [.dotStar] ++ lits ".csv", "nh_health_citations"),
  (lits "NH_HlthInspecCutpointsState_" ++ [.dotStar] ++ lits ".csv",
    "nh_health_inspection_cutpoints_state"),
  (lits "NH_Ownership_" ++ [.dotStar] ++ lits ".csv", "nh_ownership"),
  (lits "NH_Penalties_" ++ [.dotStar] ++ lits ".csv", "nh_penalties"),
  (lits "NH_ProviderInfo_" ++ [.dotStar] ++ lits ".csv", "nh_provider_info"),
  (lits "NH_QualityMsr_Claims_" ++ [.dotStar] ++ lits ".csv", "nh_quality_measure_claims"),
  (lits "NH_QualityMsr_MDS_" ++ [.dotStar] ++ lits ".csv", "nh_quality_measure_mds"),
  (lits "NH_StateUSAverages_" ++ [.dotStar] ++ lits ".csv", "nh_state_us_averages"),
  (lits "NH_SurveyDates_" ++ [.dotStar] ++ lits ".csv", "nh_survey_dates"),
  (lits "NH_SurveySummary_" ++ [.dotStar] ++ lits ".csv", "nh_survey_summary"),
  (lits "PBJ_Daily_Nurse_Staffing_" ++ [.dotStar] ++ lits ".csv", "pbj_daily_nurse_staffing"),
  (lits "Skilled_Nursing_Facility_Quality_Reporting_Program_National_Data_" ++ [.dotStar]
      ++ lits ".csv", "snf_qrp_national"),
  (lits "Skilled_Nursing_Facility_Quality_Reporting_Program_Provider_Data_" ++ [.dotStar]
      ++ lits ".csv", "snf_qrp_provider"),
  (lits "Swing_Bed_SNF_data_" ++ [.dotStar] ++ lits ".csv", "swing_bed_snf")]

/-- dataset_folder_for (healthcare_gd_to_s3.py:76-80): first matching rule
wins, no match yields the reserved identifier "_unmapped". -/
def dataset_folder_for (file_name : String) : String :=
  match ROUTE_RULES.find? (fun rule => rmatch rule.1 file_name.toList) with
  | some rule => rule.2
  | none => "_unmapped"

/-- First-match characterization of List.find?: if position i holds x, p x
holds, and everything before i fails p, then find? returns x. -/
theorem find?_of_getElem? {α : Type} (p : α → Bool) :
    ∀ (l : List α) (i : Nat) (x : α), l[i]? = some x → p x = true →
      (∀ y ∈ l.take i, p y = false) → l.find? p = some x := by
  intro l
  induction l with
  | nil => intro i x hx _ _; simp at hx
  | cons a t ih =>
    intro i x hx hpx hmin
    cases i with
    | zero =>
      simp only [List.getElem?_cons_zero, Option.some.injEq] at hx
      subst hx
      exact List.find?_cons_of_pos _ hpx
    | succ j =>
      have ha : p a = false := hmin a (by simp)
      rw [List.find?_cons_of_neg _ (by simp [ha])]
      exact ih j x (by simpa using hx) hpx
        (fun y hy => hmin y (by simp only [List.take_succ_cons, List.mem_cons]; exact Or.inr hy))

/-- C2: should_process_file returns true when no SyncState entry exists, true
when the stored modification timestamp is absent or empty, and otherwise true
iff the candidate timestamp strictly exceeds the stored one under ordered
(lexicographic, code-point) comparison — in particular false when equal. -/
theorem should_process_file_spec (table : StateTable) (fid cand : String) :
    (table fid = none → should_process_file table fid cand = true)
    ∧ (∀ item, table fid = some item → item.modifiedTime = none →
        should_process_file table fid cand = true)
    ∧ (∀ item, table fid = some item → item.modifiedTime = some "" →
        should_process_file table fid cand = true)
    ∧ (∀ item t, table fid = some item → item.modifiedTime = some t → t ≠ "" →
        (should_process_file table fid cand = true ↔ pyLt t.toList cand.toList = true))
    ∧ (∀ item, table fid = some item → item.modifiedTime = some cand → cand ≠ "" →
        should_process_file table fid cand = false) := by
  refine ⟨?_, ?_, ?_, ?_, ?_⟩
  · intro h; simp [should_process_file, h]
  · intro item h hm; simp [should_process_file, h, hm]
  · intro item h hm; simp [should_process_file, h, hm]
  · intro item t h hm ht; simp [should_process_file, h, hm, ht, pyStrGt]
  · intro item h hm hc
    simp [should_process_file, h, hm, hc, pyStrGt, pyLt_irrefl]

/-- A concrete state-table entry used by witnesses. -/
def itemEx : SyncItem :=
  { file_id := "f-1", file_name := "NH_Penalties_Jan2024.csv",
    modifiedTime := some "2024-05-01T00:00:00+00:00",
    s3_bucket := "bkt", s3_key := "raw/nh_penalties/NH_Penalties_Jan2024.csv",
    dataset_folder := "nh_penalties", last_processed_at := "2024-05-02T00:00:00+00:00" }

def tableEx : StateTable := fun fid => if fid = "f-1" then some itemEx else none

theorem should_process_file_spec_witness :
    should_process_file tableEx "f-1" "2024-05-01T00:00:00+00:00" = false :=
  (should_process_file_spec tableEx "f-1" "2024-05-01T00:00:00+00:00").2.2.2.2
    itemEx (by decide) rfl (by decide)

/-- C4: the classifier returns the dataset identifier of the first rule in
the ordered ROUTE_RULES list whose pattern matches the full name
case-insensitively, and the reserved identifier "_unmapped" when no rule
matches; NH_Ownership_Oct2024.csv classifies to nh_ownership and
unknownfile.csv to the reserved unmapped identifier. -/
theorem classifier_spec :
    (∀ name : String, (∀ rule ∈ ROUTE_RULES, rmatch rule.1 name.toList = false) →
        dataset_folder_for name = "_unmapped")
    ∧ (∀ (name : String) (i : Nat) (rule : List RItem × String),
        ROUTE_RULES[i]? = some rule → rmatch rule.1 name.toList = true →
        (∀ r ∈ ROUTE_RULES.take i, rmatch r.1 name.toList = false) →
        dataset_folder_for name = rule.2)
    ∧ dataset_folder_for "NH_Ownership_Oct2024.csv" = "nh_ownership"
    ∧ dataset_folder_for "unknownfile.csv" = "_unmapped" := by
  refine ⟨?_, ?_, by decide, by decide⟩
  · intro name h
    unfold dataset_folder_for
    rw [List.find?_eq_none.mpr (fun x hx => by simp only [Bool.not_eq_true]; exact h x hx)]
  · intro name i rule hi hm hmin
    unfold dataset_folder_for
    rw [find?_of_getElem? _ ROUTE_RULES i rule hi hm hmin]

theorem classifier_spec_witness :
    dataset_folder_for "zzz_data_2024.txt" = "_unmapped" :=
  classifier_spec.1 "zzz_data_2024.txt" (by decide)

/-- Lowercased characters of a string: Python str.lower (ASCII model). -/
def lowerChars (s : String) : List Char := s.toList.map Char.toLower

/-- Python s.endswith(suffix). -/
def pyEndsWith (s suffix : List Char) : Bool := suffix.reverse.isPrefixOf s.reverse

/-- The CSV-only filter of the batch loop:
file_name.lower().endswith(".csv")   (healthcare_gd_to_s3.py:278). -/
def isCsv (name : String) : Bool := pyEndsWith (lowerChars name) ".csv".toList

/-- One entry of the Drive listing (healthcare_gd_to_s3.py:272-275):
modifiedTime may be absent. -/
structure DriveFile where
  id : String
  name : String
  mimeType : String
  modifiedTime : Option String

/-- Environment configuration read at module load:
TARGET_S3_BUCKET and S3_PREFIX (already stripped of "/"). -/
structure Config where
  targetBucket : String
  s3PrefixEnv : String

/-- build_s3_key (healthcare_gd_to_s3.py:111-121). -/
def build_s3_key (cfg : Config) (file_name : String) : String :=
  let dataset := dataset_folder_for file_name
  if cfg.s3PrefixEnv ≠ "" then cfg.s3PrefixEnv ++ "/" ++ dataset ++ "/" ++ file_name
  else dataset ++ "/" ++ file_name

/-- Mutable external state touched by the batch: the DynamoDB table and the
set of staging files present under /tmp. -/
structure World where
  table : StateTable
  tmp : String → Bool

/-- Outcomes of the external calls of one invocation: whether the Drive
download and S3 upload for a given file id succeed, whether os.remove of a
given path succeeds, and the value of utc_now_iso(). -/
structure Oracle where
  downloadOk : String → Bool
  uploadOk : String → Bool
  removeOk : String → Bool
  now : String

/-- Python (modified_time or ""). -/
def pyOrEmpty : Option String → String
  | none => ""
  | some s => s

/-- The item written by update_state (healthcare_gd_to_s3.py:195-206), with
the call site argument modified_time or "" (line 312). -/
def update_state_item (cfg : Config) (o : Oracle) (f : DriveFile) (s3_key : String) : SyncItem :=
  { file_id := f.id, file_name := f.name,
    modifiedTime := some (pyOrEmpty f.modifiedTime),
    s3_bucket := cfg.targetBucket, s3_key := s3_key,
    dataset_folder := dataset_folder_for f.name,
    last_processed_at := o.now }

/-- tmp_path = f"/tmp/{file_id}.csv"   (healthcare_gd_to_s3.py:296). -/
def tmpPath (f : DriveFile) : String := "/tmp/" ++ f.id ++ ".csv"

/-- The skip decision of the loop body (healthcare_gd_to_s3.py:282-288):
a falsy modifiedTime (absent or empty) is processed unconditionally,
otherwise the file is skipped iff should_process_file is false. -/
def skips (w : World) (f : DriveFile) : Bool :=
  match f.modifiedTime with
  | none => false
  | some mt => if mt = "" then false else ! should_process_file w.table f.id mt

/-- World after download_to_tmp has opened the staging file. -/
def stagedWorld (w : World) (f : DriveFile) : World :=
  { w with tmp := fun q => if q = tmpPath f then true else w.tmp q }

/-- World after the best-effort os.remove (healthcare_gd_to_s3.py:306-309):
a deletion error is swallowed and leaves the file in place. -/
def cleanupWorld (o : Oracle) (w : World) (f : DriveFile) : World :=
  if o.removeOk (tmpPath f) then { w with tmp := fun q => if q = tmpPath f then false else w.tmp q }
  else w

/-- World after the full success path of one file: staging file created,
upload succeeded, best-effort remove, state committed by update_state. -/
def commitWorld (cfg : Config) (o : Oracle) (w : World) (f : DriveFile) : World :=
  let w2 := cleanupWorld o (stagedWorld w f) f
  { w2 with table := fun k =>
      if k = f.id then some (update_state_item cfg o f (build_s3_key cfg f.name))
      else w2.table k }

/-- Result of one iteration of the batch loop: ok carries the world and the
deltas of (processed, skipped, unmapped); error means an uncaught exception
(the lambda has no per-file handler, so the batch aborts). -/
inductive StepResult where
  | ok : World → Nat → Nat → Nat → StepResult
  | error : World → StepResult

def StepResult.world : StepResult → World
  | .ok w _ _ _ => w
  | .error w => w

def StepResult.isError : StepResult → Bool
  | .ok _ _ _ _ => false
  | .error _ => true

def StepResult.counts : StepResult → Nat × Nat × Nat
  | .ok _ p s u => (p, s, u)
  | .error _ => (0, 0, 0)

/-- The loop body of lambda_handler (healthcare_gd_to_s3.py:271-315):
CSV filter, skip decision, download to staging, upload, best-effort remove,
state commit strictly after a successful upload. -/
def processFile (cfg : Config) (o : Oracle) (w : World) (f : DriveFile) : StepResult :=
  if isCsv f.name = false then .ok w 0 0 0
  else if skips w f = true then .ok w 0 1 0
  else if o.downloadOk f.id = false then .error (stagedWorld w f)
  else if o.uploadOk f.id = false then .error (stagedWorld w f)
  else .ok (commitWorld cfg o w f) 1 0 (if dataset_folder_for f.name = "_unmapped" then 1 else 0)

/-- Result of the whole batch: ok carries the final world and the counts
(processed, skipped, unmapped); error means the invocation raised. -/
inductive BatchResult where
  | ok : World → Nat → Nat → Nat → BatchResult
  | error : World → BatchResult

def BatchResult.world : BatchResult → World
  | .ok w _ _ _ => w
  | .error w => w

def BatchResult.isOk : BatchResult → Bool
  | .ok _ _ _ _ => true
  | .error _ => false

def BatchResult.processedCount : BatchResult → Nat
  | .ok _ p _ _ => p
  | .error _ => 0

/-- The per-file loop of lambda_handler over the Drive listing; an uncaught
per-file exception aborts the remainder of the batch. -/
def runBatch (cfg : Config) (o : Oracle) (w : World) : List DriveFile → BatchResult
  | [] => .ok w 0 0 0
  | f :: fs =>
    match processFile cfg o w f with
    | .error w1 => .error w1
    | .ok w1 dp ds du =>
      match runBatch cfg o w1 fs with
      | .error w2 => .error w2
      | .ok w2 p s u => .ok w2 (dp + p) (ds + s) (du + u)

/-- C1: if the S3 upload for a file raises, the step raises, the state table
is exactly what it was before the attempt (no SyncState committed), and the
file still evaluates as eligible (not skipped) afterwards. -/
theorem upload_failure_commits_no_state (cfg : Config) (o : Oracle) (w : World) (f : DriveFile)
    (hcsv : isCsv f.name = true) (hsk : skips w f = false)
    (hdl : o.downloadOk f.id = true) (hup : o.uploadOk f.id = false) :
    (processFile cfg o w f).isError = true
    ∧ (processFile cfg o w f).world.table = w.table
    ∧ skips (processFile cfg o w f).world f = false := by
  have hres : processFile cfg o w f = .error (stagedWorld w f) := by
    simp [processFile, hcsv, hsk, hdl, hup]
  rw [hres]
  exact ⟨rfl, rfl, hsk⟩

def cfgEx : Config := { targetBucket := "health-bkt", s3PrefixEnv := "raw" }

def oAllOk : Oracle := { downloadOk := fun _ => true, uploadOk := fun _ => true,
                         removeOk := fun _ => true, now := "2024-06-01T00:00:00+00:00" }

def oUpFail : Oracle := { oAllOk with uploadOk := fun _ => false }

def w0Ex : World := { table := fun _ => none, tmp := fun _ => false }

def fTs : DriveFile := { id := "id-1", name := "NH_Ownership_Oct2024.csv",
                         mimeType := "text/csv", modifiedTime := some "2024-05-01T00:00:00+00:00" }

def fNoTs : DriveFile := { id := "id-2", name := "NH_Penalties_Oct2024.csv",
                           mimeType := "text/csv", modifiedTime := none }

theorem upload_failure_commits_no_state_witness :
    (processFile cfgEx oUpFail w0Ex fTs).isError = true
    ∧ (processFile cfgEx oUpFail w0Ex fTs).world.table = w0Ex.table
    ∧ skips (processFile cfgEx oUpFail w0Ex fTs).world fTs = false :=
  upload_failure_commits_no_state cfgEx oUpFail w0Ex fTs (by decide) (by decide) rfl rfl

/-- C9 counterexample: a concrete file whose upload fails; the step exits by
raising, yet the staging artifact /tmp/id-1.csv is still present — the
deletion is not on the failed-upload exit path. -/
theorem staging_left_behind_on_failed_upload :
    (processFile cfgEx oUpFail w0Ex fTs).isError = true
    ∧ (processFile cfgEx oUpFail w0Ex fTs).world.tmp (tmpPath fTs) = true := by
  exact ⟨by decide, by decide⟩

/-- C9 (amended): the staging artifact is removed (best-effort, tolerating a
failed deletion) only on the successful-upload exit path; when the upload
raises, the staging artifact is left behind. -/
theorem staging_cleanup_spec (cfg : Config) (o : Oracle) (w : World) (f : DriveFile)
    (hcsv : isCsv f.name = true) (hsk : skips w f = false)
    (hdl : o.downloadOk f.id = true) :
    (o.uploadOk f.id = true →
        (processFile cfg o w f).world.tmp (tmpPath f) = ! o.removeOk (tmpPath f))
    ∧ (o.uploadOk f.id = false →
        (processFile cfg o w f).isError = true
        ∧ (processFile cfg o w f).world.tmp (tmpPath f) = true) := by
  constructor
  · intro hup
    by_cases hrm : o.removeOk (tmpPath f) = true
    · simp [processFile, hcsv, hsk, hdl, hup, commitWorld, cleanupWorld, stagedWorld, hrm,
        StepResult.world]
    · simp [processFile, hcsv, hsk, hdl, hup, commitWorld, cleanupWorld, stagedWorld, hrm,
        StepResult.world]
  · intro hup
    have hres : processFile cfg o w f = .error (stagedWorld w f) := by
      simp [processFile, hcsv, hsk, hdl, hup]
    rw [hres]
    exact ⟨rfl, by simp [StepResult.world, stagedWorld]⟩

theorem staging_cleanup_spec_witness :
    (processFile cfgEx oAllOk w0Ex fTs).world.tmp (tmpPath fTs)
      = ! oAllOk.removeOk (tmpPath fTs) :=
  (staging_cleanup_spec cfgEx oAllOk w0Ex fTs (by decide) (by decide) rfl).1 rfl

/-- C10: a discovered CSV file with no modification timestamp is never
skipped; a successful transfer commits a SyncState whose stored timestamp is
the empty string, so should_process_file answers true for that identifier on
every subsequent run regardless of the candidate timestamp. -/
theorem no_timestamp_reprocess_spec (cfg : Config) (o : Oracle) (w : World) (f : DriveFile)
    (hcsv : isCsv f.name = true) (hmt : f.modifiedTime = none)
    (hdl : o.downloadOk f.id = true) (hup : o.uploadOk f.id = true) :
    skips w f = false
    ∧ (processFile cfg o w f).isError = false
    ∧ (processFile cfg o w f).counts
        = (1, 0, if dataset_folder_for f.name = "_unmapped" then 1 else 0)
    ∧ (processFile cfg o w f).world.table f.id
        = some (update_state_item cfg o f (build_s3_key cfg f.name))
    ∧ (update_state_item cfg o f (build_s3_key cfg f.name)).modifiedTime = some ""
    ∧ ∀ cand, should_process_file (processFile cfg o w f).world.table f.id cand = true := by
  have hskips : skips w f = false := by simp [skips, hmt]
  have hres : processFile cfg o w f
      = .ok (commitWorld cfg o w f) 1 0 (if dataset_folder_for f.name = "_unmapped" then 1 else 0) := by
    simp [processFile, hcsv, hskips, hdl, hup]
  have htab : (commitWorld cfg o w f).table f.id
      = some (update_state_item cfg o f (build_s3_key cfg f.name)) := by
    simp [commitWorld]
  have hmt' : (update_state_item cfg o f (build_s3_key cfg f.name)).modifiedTime = some "" := by
    simp [update_state_item, pyOrEmpty, hmt]
  refine ⟨hskips, ?_, ?_, ?_, hmt', ?_⟩
  · rw [hres]; rfl
  · rw [hres]; rfl
  · rw [hres]; exact htab
  · intro cand
    rw [hres]
    simp [StepResult.world, should_process_file, htab, hmt']

theorem no_timestamp_reprocess_spec_witness :
    should_process_file (processFile cfgEx oAllOk w0Ex fNoTs).world.table fNoTs.id
      "2099-01-01T00:00:00+00:00" = true :=
  (no_timestamp_reprocess_spec cfgEx oAllOk w0Ex fNoTs (by decide) rfl rfl rfl).2.2.2.2.2
    "2099-01-01T00:00:00+00:00"

/-- should_process_file only reads the table at its own key. -/
theorem should_process_congr (t t' : StateTable) (fid mt : String)
    (h : t' fid = t fid) : should_process_file t' fid mt = should_process_file t fid mt := by
  unfold should_process_file
  rw [h]

/-- The skip decision only reads the table at the file's own key. -/
theorem skips_congr (w w' : World) (f : DriveFile) (h : w'.table f.id = w.table f.id) :
    skips w' f = skips w f := by
  unfold skips
  cases f.modifiedTime with
  | none => rfl
  | some mt => simp only [should_process_congr w.table w'.table f.id mt h]

theorem stagedWorld_table (w : World) (f : DriveFile) : (stagedWorld w f).table = w.table := rfl

theorem cleanupWorld_table (o : Oracle) (w : World) (f : DriveFile) :
    (cleanupWorld o w f).table = w.table := by
  unfold cleanupWorld
  split <;> rfl

theorem commitWorld_table (cfg : Config) (o : Oracle) (w : World) (f : DriveFile) (k : String) :
    (commitWorld cfg o w f).table k
      = if k = f.id then some (update_state_item cfg o f (build_s3_key cfg f.name))
        else w.table k := by
  unfold commitWorld
  simp [cleanupWorld_table, stagedWorld_table]

/-- Equation: a non-CSV name is passed over without any effect or count. -/
theorem processFile_not_csv (cfg : Config) (o : Oracle) (w : World) (f : DriveFile)
    (h : isCsv f.name = false) : processFile cfg o w f = .ok w 0 0 0 := by
  simp [processFile, h]

/-- Equation: an unchanged file is skipped with no effect. -/
theorem processFile_skip (cfg : Config) (o : Oracle) (w : World) (f : DriveFile)
    (hc : isCsv f.name = true) (hs : skips w f = true) :
    processFile cfg o w f = .ok w 0 1 0 := by
  simp [processFile, hc, hs]

theorem processFile_dl_err (cfg : Config) (o : Oracle) (w : World) (f : DriveFile)
    (hc : isCsv f.name = true) (hs : skips w f = false) (hd : o.downloadOk f.id = false) :
    processFile cfg o w f = .error (stagedWorld w f) := by
  simp [processFile, hc, hs, hd]

theorem processFile_ul_err (cfg : Config) (o : Oracle) (w : World) (f : DriveFile)
    (hc : isCsv f.name = true) (hs : skips w f = false) (hd : o.downloadOk f.id = true)
    (hu : o.uploadOk f.id = false) :
    processFile cfg o w f = .error (stagedWorld w f) := by
  simp [processFile, hc, hs, hd, hu]

theorem processFile_commit (cfg : Config) (o : Oracle) (w : World) (f : DriveFile)
    (hc : isCsv f.name = true) (hs : skips w f = false) (hd : o.downloadOk f.id = true)
    (hu : o.uploadOk f.id = true) :
    processFile cfg o w f
      = .ok (commitWorld cfg o w f) 1 0 (if dataset_folder_for f.name = "_unmapped" then 1 else 0) := by
  simp [processFile, hc, hs, hd, hu]

/-- A successful step leaves every other key of the table untouched. -/
theorem processFile_ok_table (cfg : Config) (o : Oracle) (w : World) (f : DriveFile)
    (w' : World) (dp ds du : Nat) (h : processFile cfg o w f = .ok w' dp ds du) :
    ∀ k, k ≠ f.id → w'.table k = w.table k := by
  intro k hk
  cases hc : isCsv f.name with
  | false => rw [processFile_not_csv cfg o w f hc] at h; cases h; rfl
  | true =>
    cases hs : skips w f with
    | true => rw [processFile_skip cfg o w f hc hs] at h; cases h; rfl
    | false =>
      cases hd : o.downloadOk f.id with
      | false => rw [processFile_dl_err cfg o w f hc hs hd] at h; cases h
      | true =>
        cases hu : o.uploadOk f.id with
        | false => rw [processFile_ul_err cfg o w f hc hs hd hu] at h; cases h
        | true =>
          rw [processFile_commit cfg o w f hc hs hd hu] at h
          cases h
          rw [commitWorld_table]
          simp [hk]

/-- After a successful step on a CSV file with a non-empty timestamp, that
file is skipped when re-examined against the resulting world. -/
theorem processFile_ok_skips_after (cfg : Config) (o : Oracle) (w : World) (f : DriveFile)
    (w' : World) (dp ds du : Nat) (m : String)
    (hcsv : isCsv f.name = true) (hm : f.modifiedTime = some m) (hme : m ≠ "")
    (h : processFile cfg o w f = .ok w' dp ds du) :
    skips w' f = true := by
  cases hs : skips w f with
  | true => rw [processFile_skip cfg o w f hcsv hs] at h; cases h; exact hs
  | false =>
    cases hd : o.downloadOk f.id with
    | false => rw [processFile_dl_err cfg o w f hcsv hs hd] at h; cases h
    | true =>
      cases hu : o.uploadOk f.id with
      | false => rw [processFile_ul_err cfg o w f hcsv hs hd hu] at h; cases h
      | true =>
        rw [processFile_commit cfg o w f hcsv hs hd hu] at h
        cases h
        simp [skips, hm, hme, should_process_file, commitWorld_table, update_state_item,
          pyOrEmpty, pyStrGt, pyLt_irrefl]

/-- A successful batch leaves every key not listed in the batch untouched. -/
theorem runBatch_ok_table (cfg : Config) (o : Oracle) :
    ∀ (fs : List DriveFile) (w w' : World) (p s u : Nat),
      runBatch cfg o w fs = .ok w' p s u →
      ∀ k, (∀ f ∈ fs, f.id ≠ k) → w'.table k = w.table k := by
  intro fs
  induction fs with
  | nil => intro w w' p s u h k _; rw [runBatch] at h; cases h; rfl
  | cons g fs ih =>
    intro w w' p s u h k hk
    rw [runBatch] at h
    cases hstep : processFile cfg o w g with
    | error w1 => simp only [hstep] at h; cases h
    | ok w1 dp ds du =>
      simp only [hstep] at h
      cases hrest : runBatch cfg o w1 fs with
      | error w2 => simp only [hrest] at h; cases h
      | ok w2 p2 s2 u2 =>
        simp only [hrest] at h
        cases h
        have h1 : w1.table k = w.table k :=
          processFile_ok_table cfg o w g w1 dp ds du hstep k
            (Ne.symm (hk g (List.mem_cons_self g fs)))
        have h2 : w'.table k = w1.table k :=
          ih w1 w' p2 s2 u2 hrest k (fun f hf => hk f (List.mem_cons_of_mem _ hf))
        rw [h2, h1]

/-- After a successful batch over pairwise-distinct identifiers in which
every CSV file carries a non-empty timestamp, every CSV file of the listing
is skipped against the resulting world. -/
theorem runBatch_ok_skips (cfg : Config) (o : Oracle) :
    ∀ (fs : List DriveFile) (w w' : World) (p s u : Nat),
      (fs.map DriveFile.id).Nodup →
      (∀ f ∈ fs, isCsv f.name = true → ∃ m, f.modifiedTime = some m ∧ m ≠ "") →
      runBatch cfg o w fs = .ok w' p s u →
      ∀ f ∈ fs, isCsv f.name = true → skips w' f = true := by
  intro fs
  induction fs with
  | nil => intro w w' p s u _ _ _ f hf; cases hf
  | cons g fs ih =>
    intro w w' p s u hnd hmt h f hf hcsv
    obtain ⟨hno, hnd'⟩ := List.nodup_cons.mp hnd
    rw [runBatch] at h
    cases hstep : processFile cfg o w g with
    | error w1 => simp only [hstep] at h; cases h
    | ok w1 dp ds du =>
      simp only [hstep] at h
      cases hrest : runBatch cfg o w1 fs with
      | error w2 => simp only [hrest] at h; cases h
      | ok w2 p2 s2 u2 =>
        simp only [hrest] at h
        cases h
        rcases List.mem_cons.mp hf with rfl | hf'
        · obtain ⟨m, hm, hme⟩ := hmt f (List.mem_cons_self f fs) hcsv
          have hs1 : skips w1 f = true :=
            processFile_ok_skips_after cfg o w f w1 dp ds du m hcsv hm hme hstep
          have hagree : w'.table f.id = w1.table f.id :=
            runBatch_ok_table cfg o fs w1 w' p2 s2 u2 hrest f.id
              (fun f' hf' heq => hno (heq ▸ List.mem_map_of_mem DriveFile.id hf'))
          rw [skips_congr w1 w' f hagree]
          exact hs1
        · exact ih w1 w' p2 s2 u2 hnd' (fun f' hf' => hmt f' (List.mem_cons_of_mem _ hf'))
            hrest f hf' hcsv

/-- If every CSV file of the listing is skipped against w, the batch returns
w itself with processed = 0, skipped = number of CSV files, unmapped = 0 —
in particular no put is performed and no staging file is touched. -/
theorem runBatch_all_skip (cfg : Config) (o : Oracle) :
    ∀ (fs : List DriveFile) (w : World),
      (∀ f ∈ fs, isCsv f.name = true → skips w f = true) →
      runBatch cfg o w fs = .ok w 0 (fs.countP (fun f => isCsv f.name)) 0 := by
  intro fs
  induction fs with
  | nil => intro w _; rw [runBatch]; rfl
  | cons g fs ih =>
    intro w hall
    rw [runBatch]
    cases hc : isCsv g.name with
    | false =>
      simp only [processFile_not_csv cfg o w g hc,
        ih w (fun f hf => hall f (List.mem_cons_of_mem _ hf))]
      simp [List.countP_cons, hc]
    | true =>
      simp only [processFile_skip cfg o w g hc (hall g (List.mem_cons_self g fs) hc),
        ih w (fun f hf => hall f (List.mem_cons_of_mem _ hf))]
      simp [List.countP_cons, hc, Nat.add_comm]

/-- C5 (amended): re-running the batch over the same listing, starting from
the state produced by a first successful run, yields processed = 0 and
skipped = number of CSV-named files and returns the world unchanged (no put,
no staging) — provided the listing has pairwise-distinct file identifiers
and every CSV file carries a non-empty modification timestamp. -/
theorem batch_rerun_idempotent (cfg : Config) (o o' : Oracle) (w0 : World)
    (files : List DriveFile) (w1 : World) (p s u : Nat)
    (hnd : (files.map DriveFile.id).Nodup)
    (hmt : ∀ f ∈ files, isCsv f.name = true → ∃ m, f.modifiedTime = some m ∧ m ≠ "")
    (h1 : runBatch cfg o w0 files = .ok w1 p s u) :
    runBatch cfg o' w1 files = .ok w1 0 (files.countP (fun f => isCsv f.name)) 0 :=
  runBatch_all_skip cfg o' files w1
    (fun f hf hcsv => runBatch_ok_skips cfg o files w0 w1 p s u hnd hmt h1 f hf hcsv)

theorem batch_rerun_idempotent_witness :
    runBatch cfgEx oUpFail (runBatch cfgEx oAllOk w0Ex [fTs]).world [fTs]
      = .ok (runBatch cfgEx oAllOk w0Ex [fTs]).world 0
          ([fTs].countP (fun f => isCsv f.name)) 0 :=
  batch_rerun_idempotent cfgEx oAllOk oUpFail w0Ex [fTs]
    (runBatch cfgEx oAllOk w0Ex [fTs]).world 1 0 0
    (by decide)
    (by
      intro f hf _
      rw [List.mem_singleton.mp hf]
      exact ⟨"2024-05-01T00:00:00+00:00", rfl, by decide⟩)
    (by rfl)

/-- C5 counterexample: a listing holding one CSV file without a modification
timestamp; the first run succeeds, yet the second run over the unchanged
listing processes the file again (processed = 1, not 0). -/
theorem batch_rerun_reprocesses_untimestamped :
    (runBatch cfgEx oAllOk w0Ex [fNoTs]).isOk = true
    ∧ (runBatch cfgEx oAllOk (runBatch cfgEx oAllOk w0Ex [fNoTs]).world [fNoTs]).processedCount
        = 1 := by
  exact ⟨by decide, by decide⟩

/-- Python str.strip() whitespace set (ASCII part). -/
def isPySpace (c : Char) : Bool :=
  c == ' ' || c == '\t' || c == '\n' || c == '\r' || c == '\x0b' || c == '\x0c'

def pyStripWs (l : List Char) : List Char :=
  ((l.dropWhile isPySpace).reverse.dropWhile isPySpace).reverse

def pyStripChar (ch : Char) (l : List Char) : List Char :=
  ((l.dropWhile (fun c => c == ch)).reverse.dropWhile (fun c => c == ch)).reverse

/-- The character class of re.sub r"[ \t\-\/]+" in normalize_col. -/
def isSepChar (c : Char) : Bool := c == ' ' || c == '\t' || c == '-' || c == '/'

/-- Replace every maximal run of characters satisfying p by the single
character rep: the semantics of re.sub r"<class>+" "<rep>".  The Bool flag
records whether the previous character was inside a run. -/
def collapseRunsAux (p : Char → Bool) (rep : Char) : Bool → List Char → List Char
  | _, [] => []
  | inRun, c :: cs =>
    if p c then
      if inRun then collapseRunsAux p rep true cs
      else rep :: collapseRunsAux p rep true cs
    else c :: collapseRunsAux p rep false cs

def collapseRuns (p : Char → Bool) (rep : Char) (l : List Char) : List Char :=
  collapseRunsAux p rep false l

/-- The character class kept by re.sub r"[^a-z0-9_]" "". -/
def isKeepChar (c : Char) : Bool := ('a' ≤ c && c ≤ 'z') || c.isDigit || c == '_'

/-- normalize_col (raw_to_refined.py:99-105): strip, lowercase, collapse
space/tab/hyphen/slash runs to one underscore, drop characters outside
[a-z0-9_], collapse underscore runs, strip underscores, default "col". -/
def normalize_col (col : String) : String :=
  let c1 := pyStripWs col.toList
  let c2 := c1.map Char.toLower
  let c3 := collapseRuns isSepChar '_' c2
  let c4 := c3.filter isKeepChar
  let c5 := collapseRuns (fun c => c == '_') '_' c4
  let c6 := pyStripChar '_' c5
  if c6.isEmpty then "col" else String.mk c6

/-- Insert or overwrite one key of the Python dict seen. -/
def setCount : List (String × Nat) → String → Nat → List (String × Nat)
  | [], k, v => [(k, v)]
  | (k', v') :: rest, k, v =>
    if k' = k then (k, v) :: rest else (k', v') :: setCount rest k v

/-- uniqueify (raw_to_refined.py:107-117): a first occurrence is kept as-is
and sets seen to 1; a repeated occurrence increments seen and appends the
new count, so the second occurrence gets suffix _2. -/
def uniqueifyAux (seen : List (String × Nat)) : List String → List String
  | [] => []
  | c :: cs =>
    match seen.lookup c with
    | none => c :: uniqueifyAux (setCount seen c 1) cs
    | some n => (c ++ "_" ++ toString (n + 1)) :: uniqueifyAux (setCount seen c (n + 1)) cs

def uniqueify (cols : List String) : List String := uniqueifyAux [] cols

theorem uniqueifyAux_length (cols : List String) :
    ∀ seen, (uniqueifyAux seen cols).length = cols.length := by
  induction cols with
  | nil => intro seen; rfl
  | cons c cs ih =>
    intro seen
    unfold uniqueifyAux
    cases seen.lookup c <;> simp [ih]

/-- C8 counterexample: the normalized name state occurring twice in one
header row de-duplicates to state, state_2 — not state, state_1 as claimed
(the appended suffix is the new occurrence count, which starts at 2). -/
theorem uniqueify_second_occurrence_suffix_two :
    uniqueify ["state", "state"] = ["state", "state_2"]
    ∧ uniqueify ["state", "state"] ≠ ["state", "state_1"] := by
  exact ⟨by decide, by decide⟩

/-- C8 (amended): "Facility  Name/#" normalizes to facility_name, the
duplicate pair yields state, state_2 (incrementing count suffix starting at
2 for the second occurrence), and de-duplication keeps the column list
length (order positional). -/
theorem normalize_and_uniqueify_spec :
    normalize_col "Facility  Name/#" = "facility_name"
    ∧ uniqueify ["state", "state"] = ["state", "state_2"]
    ∧ ∀ cols : List String, (uniqueify cols).length = cols.length :=
  ⟨by decide, by decide, fun cols => uniqueifyAux_length cols []⟩

/-- Substring containment on character lists: Python (pat in hay). -/
def listContainsSub (hay pat : List Char) : Bool :=
  pat.isPrefixOf hay ||
    match hay with
    | [] => false
    | _ :: t => listContainsSub t pat

/-- The substrings checked by is_missing_path_error (raw_to_refined.py:145-158). -/
def MISSING_PATH_PATTERNS : List String :=
  ["path does not exist", "no such file or directory", "not found", "nosuchkey",
   "does not exist"]

/-- is_missing_path_error: any known pattern occurs in the lowercased
exception message. -/
def is_missing_path_error (msg : String) : Bool :=
  MISSING_PATH_PATTERNS.any (fun p => listContainsSub (lowerChars msg) p.toList)

/-- Behavior of the external compute engine on one dataset inside the try
block of run (raw_to_refined.py:180-226): either every step completes and
the read produced ncols columns, or some step raises with a message. -/
inductive DatasetExec where
  | okCols (ncols : Nat)
  | raises (msg : String)

/-- The results dictionary of run (raw_to_refined.py:172). -/
structure RunResults where
  processed : List String
  skipped_missing : List (String × String)
  failed : List (String × String)
deriving DecidableEq

/-- One iteration of the dataset loop of run (raw_to_refined.py:174-235):
zero columns with SKIP_MISSING records skipped_missing; an exception whose
message matches a missing-path pattern (with SKIP_MISSING) records
skipped_missing; any other exception records failed; otherwise processed.
Every branch continues with the next dataset. -/
def runDataset (skipMissing : Bool) (exec : String → DatasetExec) (res : RunResults)
    (dataset : String) : RunResults :=
  match exec dataset with
  | .okCols n =>
    if skipMissing && n == 0 then
      { res with skipped_missing := res.skipped_missing ++ [(dataset, "no columns")] }
    else { res with processed := res.processed ++ [dataset] }
  | .raises msg =>
    if skipMissing && is_missing_path_error msg then
      { res with skipped_missing := res.skipped_missing ++ [(dataset, msg)] }
    else { res with failed := res.failed ++ [(dataset, msg)] }

/-- The dataset loop of run, folded over the configured dataset list. -/
def run_results (skipMissing : Bool) (exec : String → DatasetExec)
    (datasets : List String) : RunResults :=
  datasets.foldl (runDataset skipMissing exec) ⟨[], [], []⟩

/-- run (raw_to_refined.py:164-245): after all datasets are attempted, raise
iff FAIL_JOB_ON_DATASET_FAILURE is set and the failed list is non-empty. -/
def run (skipMissing failOnFailure : Bool) (exec : String → DatasetExec)
    (datasets : List String) : Except String RunResults :=
  let results := run_results skipMissing exec datasets
  if failOnFailure && decide (0 < results.failed.length) then
    .error "One or more datasets failed"
  else .ok results

def exceptIsOk : Except String RunResults → Bool
  | .ok _ => true
  | .error _ => false

/-- Occurrences of dataset d across the three result lists. -/
def recCount (r : RunResults) (d : String) : Nat :=
  r.processed.count d + (r.skipped_missing.map Prod.fst).count d
    + (r.failed.map Prod.fst).count d

theorem runDataset_recCount (sm : Bool) (exec : String → DatasetExec) (r : RunResults)
    (g d : String) :
    recCount (runDataset sm exec r g) d = recCount r d + if g == d then 1 else 0 := by
  unfold runDataset
  cases hexec : exec g with
  | okCols n =>
    cases hb : sm && (n == 0) <;>
      simp [hb, recCount, List.count_append, List.count_cons, List.count_nil,
        List.map_append] <;> omega
  | raises msg =>
    cases hb : sm && is_missing_path_error msg <;>
      simp [hb, recCount, List.count_append, List.count_cons, List.count_nil,
        List.map_append] <;> omega

theorem run_results_recCount (sm : Bool) (exec : String → DatasetExec) :
    ∀ (ds : List String) (r : RunResults) (d : String),
      recCount (ds.foldl (runDataset sm exec) r) d = recCount r d + ds.count d := by
  intro ds
  induction ds with
  | nil => intro r d; simp
  | cons g t ih =>
    intro r d
    simp only [List.foldl_cons, ih, runDataset_recCount, List.count_cons]
    omega

/-- C3: in the transform loop every dataset of the configured list is
recorded exactly once across processed / skipped_missing / failed (an
exception on one dataset never prevents the remaining ones: the loop is a
total fold, and the suffix after any dataset is still folded), and the
overall run is signaled as failed iff the fail-on-dataset-failure option is
enabled and the failed list is non-empty, only after all datasets were
attempted. -/
theorem transform_isolation_spec (sm ff : Bool) (exec : String → DatasetExec)
    (ds : List String) :
    (∀ d : String, recCount (run_results sm exec ds) d = ds.count d)
    ∧ (∀ ds1 ds2 : List String,
        run_results sm exec (ds1 ++ ds2)
          = ds2.foldl (runDataset sm exec) (run_results sm exec ds1))
    ∧ (exceptIsOk (run sm ff exec ds) = false
        ↔ ff = true ∧ (run_results sm exec ds).failed ≠ []) := by
  refine ⟨?_, ?_, ?_⟩
  · intro d
    have h := run_results_recCount sm exec ds ⟨[], [], []⟩ d
    simpa [recCount, run_results] using h
  · intro ds1 ds2
    unfold run_results
    exact List.foldl_append _ _ ds1 ds2
  · unfold run exceptIsOk
    cases hb : ff && decide (0 < (run_results sm exec ds).failed.length) with
    | true =>
      simp only [hb, if_true]
      simp only [Bool.and_eq_true, decide_eq_true_iff, List.length_pos] at hb
      simpa using hb
    | false =>
      simp only [hb, Bool.false_eq_true, if_false]
      constructor
      · intro hcon; cases hcon
      · rintro ⟨hff, hne⟩
        subst hff
        simp only [Bool.true_and] at hb
        rw [decide_eq_false_iff_not, Nat.not_lt, Nat.le_zero, List.length_eq_zero] at hb
        exact absurd hb hne

/-- One entry of glue get_job_runs. -/
structure JobRun where
  id : String
  state : String
deriving DecidableEq

/-- The non-terminal run states checked by the guard
(healthcare_gd_to_s3.py:227). -/
def nonTerminal (s : String) : Bool := s == "STARTING" || s == "RUNNING" || s == "STOPPING"

/-- The dictionaries returned by start_glue_job_if_needed. -/
inductive GuardResult where
  | notStarted (reason : String) (existing_job_run_id : Option String)
  | started (job_run_id : String)
deriving DecidableEq

/-- The for-loop over get_job_runs results (healthcare_gd_to_s3.py:224-232):
the first run in a non-terminal state, where a raising query (caught at line
233-235) yields no blocking run. -/
def firstActiveRun (getJobRuns : Except String (List JobRun)) : Option JobRun :=
  match getJobRuns with
  | .error _ => none
  | .ok runs => runs.find? (fun jr : JobRun => nonTerminal jr.state)

/-- start_glue_job_if_needed (healthcare_gd_to_s3.py:212-249).  jobNameSet
models require_env GLUE_JOB_NAME; getJobRuns is the outcome of the
get_job_runs call (an exception is caught and treated as no blocking run);
newRunId is the id returned by start_job_run; skipped_files and
unmapped_files only feed the start arguments and do not steer the decision. -/
def start_glue_job_if_needed (jobNameSet : Bool) (getJobRuns : Except String (List JobRun))
    (newRunId : String) (processed_files skipped_files unmapped_files : Nat) :
    Except String GuardResult :=
  if processed_files ≤ 0 then .ok (.notStarted "No new/changed files to process" none)
  else if jobNameSet = false then .error "GLUE_JOB_NAME env var is not set"
  else
    match firstActiveRun getJobRuns with
    | some r => .ok (.notStarted ("Glue job already " ++ r.state) (some r.id))
    | none => .ok (.started newRunId)

/-- C6: with processed = 0 the guard returns not-started with reason "no
new/changed files" independently of the run-state query outcome (the query
is not consulted); with processed > 0 and a first non-terminal recent run it
returns not-started with that run's identifier; otherwise it starts a new
run and returns the new run identifier. -/
theorem trigger_guard_spec (js : Bool) (q q' : Except String (List JobRun)) (rid : String)
    (p s u s' u' : Nat) :
    (start_glue_job_if_needed js q rid 0 s u
        = .ok (.notStarted "No new/changed files to process" none)
      ∧ start_glue_job_if_needed js q rid 0 s u = start_glue_job_if_needed js q' rid 0 s' u')
    ∧ (0 < p → js = true → ∀ (runs : List JobRun) (r : JobRun), q = .ok runs →
        runs.find? (fun jr : JobRun => nonTerminal jr.state) = some r →
        r ∈ runs ∧ nonTerminal r.state = true
          ∧ start_glue_job_if_needed js q rid p s u
              = .ok (.notStarted ("Glue job already " ++ r.state) (some r.id)))
    ∧ (0 < p → js = true → firstActiveRun q = none →
        start_glue_job_if_needed js q rid p s u = .ok (.started rid)) := by
  refine ⟨⟨?_, ?_⟩, ?_, ?_⟩
  · simp [start_glue_job_if_needed]
  · simp [start_glue_job_if_needed]
  · intro hp hjs runs r hq hfind
    have hple : ¬ (p ≤ 0) := by omega
    subst hq
    have hmem : r ∈ runs := List.mem_of_find?_eq_some hfind
    have hnt : nonTerminal r.state = true := by
      have h3 := List.find?_some hfind
      simpa using h3
    refine ⟨hmem, hnt, ?_⟩
    simp [start_glue_job_if_needed, firstActiveRun, hple, hjs, hfind]
  · intro hp hjs hnone
    have hple : ¬ (p ≤ 0) := by omega
    simp [start_glue_job_if_needed, hple, hjs, hnone]

def runsBusy : List JobRun :=
  [{ id := "jr-0", state := "SUCCEEDED" }, { id := "jr-1", state := "RUNNING" }]

theorem trigger_guard_spec_witness :
    start_glue_job_if_needed true (.ok runsBusy) "jr-new" 3 1 0
      = .ok (.notStarted ("Glue job already " ++ "RUNNING") (some "jr-1")) :=
  ((trigger_guard_spec true (.ok runsBusy) (.ok runsBusy) "jr-new" 3 1 0 1 0).2.1
    (by decide) rfl runsBusy { id := "jr-1", state := "RUNNING" } rfl (by decide)).2.2

/-- C7: if the query for existing runs raises, the guard does not propagate
the error: with processed > 0 (and the job name configured) it still
proceeds to start a new run. -/
theorem trigger_guard_check_failure_proceeds (js : Bool) (e : String) (rid : String)
    (p s u : Nat) (hp : 0 < p) (hjs : js = true) :
    start_glue_job_if_needed js (.error e) rid p s u = .ok (.started rid) := by
  have hple : ¬ (p ≤ 0) := by omega
  simp [start_glue_job_if_needed, firstActiveRun, hple, hjs]

theorem trigger_guard_check_failure_proceeds_witness :
    start_glue_job_if_needed true (.error "AccessDenied") "jr-new" 2 0 0
      = .ok (.started "jr-new") :=
  trigger_guard_check_failure_proceeds true "AccessDenied" "jr-new" 2 0 0 (by decide) rfl

/-- A concrete engine behavior used by witnesses: one clean dataset, one
missing raw location, one unrelated fault. -/
def execEx : String → DatasetExec := fun d =>
  if d = "nh_ownership" then .okCols 5
  else if d = "nh_penalties" then .raises "Path does not exist: s3://bkt/raw/nh_penalties/"
  else .raises "boom"

theorem transform_isolation_spec_witness :
    recCount (run_results true execEx ["nh_ownership", "nh_penalties", "swing_bed_snf"])
        "nh_penalties"
      = (["nh_ownership", "nh_penalties", "swing_bed_snf"] : List String).count "nh_penalties" :=
  (transform_isolation_spec true true execEx
    ["nh_ownership", "nh_penalties", "swing_bed_snf"]).1 "nh_penalties"

theorem normalize_and_uniqueify_spec_witness :
    (uniqueify ["a", "b", "a"]).length = (["a", "b", "a"] : List String).length :=
  normalize_and_uniqueify_spec.2.2 ["a", "b", "a"]
